import Mathlib

/-!
Shallow embedding of `src/back-end/server.py` (a Flask SSE demo endpoint).

The handler `sse` logs a new connection, builds a `Response` around the
generator `generate_events`, and registers `on_close`.  The generator loops
`for i in range(1, 11)`, each iteration building a dict
`{"count": i, "time": time.strftime("%H:%M:%S"), "random": random.random()}`,
yielding the frame `f"id: {i}\ndata: {json.dumps(data)}\n\n"`, then calling
`time.sleep(1)`.  After the loop it prints a completion message; if the peer
disconnects mid-stream, `GeneratorExit` is raised at the suspended `yield`,
the generator prints an abrupt-disconnect message and re-raises.  In every
case `on_close` prints a final "connection closed" message.

The embedding models the visible behaviour of one connection as a list of
trace items (delivered frames, 1-second suspensions, log events), is
parameterised by an environment supplying the local clock, the random
source (whose stdlib contract is that `random.random()` returns a float in
[0,1)), the float serialisation used by `json.dumps`, and the real
durations of the build and sleep steps.  A second, separate model
(`SharedRandom`) embeds two connections interleaved over the shared
module-level `random` generator, for the concurrency claims.
-/

namespace SSE

/-- A broken-down local wall-clock instant, as delivered by the C library's
`localtime` / Python's `time.localtime` to `time.strftime`: hour, minute,
second with their structural bounds. -/
structure HMS where
  hour : Nat
  minute : Nat
  second : Nat
  hour_lt : hour < 24
  minute_lt : minute < 60
  second_lt : second < 60

/-- Two-digit zero-padded decimal rendering, the `%H` / `%M` / `%S`
conversions of `strftime` for an argument below 100: pad with a leading
`0` below 10, otherwise print the two digits. -/
def pad2 (n : Nat) : String :=
  if n < 10 then "0" ++ toString n else toString n

/-- `time.strftime("%H:%M:%S")` applied to a broken-down local time. -/
def fmtHMS (t : HMS) : String :=
  pad2 t.hour ++ ":" ++ pad2 t.minute ++ ":" ++ pad2 t.second

/-- The environment a single connection's handler runs in: the local clock
and the random draws sampled at each loop iteration `i` (1-based), the
float-to-text rendering `json.dumps` uses for the random value, and the
real-time durations of the steps.  The fields `rand_nonneg` / `rand_lt_one`
are the documented contract of `random.random()`: the result lies in
[0,1). -/
structure Env where
  clock : Nat → HMS
  rand : Nat → ℚ
  rand_nonneg : ∀ i, 0 ≤ rand i
  rand_lt_one : ∀ i, rand i < 1
  showFloat : ℚ → String
  t0 : ℚ
  buildCost : Nat → ℚ
  sleepDur : Nat → ℚ

/-- The dict built at iteration `i` of the loop in `generate_events`:
`{"count": i, "time": time.strftime("%H:%M:%S"), "random": random.random()}`. -/
structure Event where
  count : Nat
  time : String
  random : ℚ

/-- Build the `i`-th event from the environment's clock and random source. -/
def buildEvent (env : Env) (i : Nat) : Event :=
  { count := i, time := fmtHMS (env.clock i), random := env.rand i }

/-- `json.dumps(data)` for the event dict: keys in insertion order
(`count`, `time`, `random`), default separators. -/
def jsonDumps (env : Env) (e : Event) : String :=
  "\x7b\"count\": " ++ toString e.count ++ ", \"time\": \"" ++ e.time ++
    "\", \"random\": " ++ env.showFloat e.random ++ "\x7d"

/-- The frame string yielded at iteration `i`:
`f"id: {i}\ndata: {json.dumps(data)}\n\n"`. -/
def frameStr (env : Env) (i : Nat) : String :=
  "id: " ++ toString i ++ "\ndata: " ++ jsonDumps env (buildEvent env i) ++ "\n\n"

/-- The lifecycle log messages printed by the handler. -/
inductive LogMsg where
  | newConnection
  | streamCompleted
  | abruptDisconnect
  | connectionClosed
deriving DecidableEq, Repr

/-- One observable step of a connection: a frame delivered to the peer, a
1-second suspension (`time.sleep(1)`), or a lifecycle log line. -/
inductive Item where
  | frame (i : Nat) (s : String)
  | sleep
  | log (m : LogMsg)
deriving DecidableEq, Repr

/-- The peer's behaviour: `none` means it stays connected for the whole
stream; `some k` means it accepts `k` frames and then disconnects, so the
write of frame `k+1` fails and `GeneratorExit` is raised at that `yield`. -/
def accepts (budget : Option Nat) (i : Nat) : Bool :=
  match budget with
  | none => true
  | some k => i ≤ k

/-- The loop of `generate_events`, iterating from counter `i` with `n`
iterations remaining.  A delivered frame is followed by `time.sleep(1)`;
when the peer no longer accepts, `GeneratorExit` fires at the `yield`, the
abrupt-disconnect line is printed and the exception re-raised, producing
nothing further; when the loop finishes, the completion line is printed. -/
def emitLoop (env : Env) (budget : Option Nat) (i : Nat) : Nat → List Item
  | 0 => [Item.log LogMsg.streamCompleted]
  | n + 1 =>
    if accepts budget i then
      Item.frame i (frameStr env i) :: Item.sleep :: emitLoop env budget (i + 1) n
    else
      [Item.log LogMsg.abruptDisconnect]

/-- The trace of `generate_events`: the loop `for i in range(1, 11)`. -/
def generate_events (env : Env) (budget : Option Nat) : List Item :=
  emitLoop env budget 1 10

/-- The full trace of one connection to `/sse`: the new-connection log, the
generator's trace, and the `on_close` callback's log, which Flask runs on
response disposal on every path. -/
def handleConnection (env : Env) (budget : Option Nat) : List Item :=
  Item.log LogMsg.newConnection ::
    (generate_events env budget ++ [Item.log LogMsg.connectionClosed])

/-- Sequence numbers of the frames delivered in a trace, in order. -/
def framesIds (tr : List Item) : List Nat :=
  tr.filterMap fun it =>
    match it with
    | Item.frame i _ => some i
    | _ => none

/-- How many times a given log message occurs in a trace. -/
def countLog (tr : List Item) (m : LogMsg) : Nat :=
  tr.countP fun it =>
    match it with
    | Item.log m' => m' = m
    | _ => false

/-- How many 1-second suspensions occur in a trace. -/
def countSleeps (tr : List Item) : Nat :=
  tr.countP fun it =>
    match it with
    | Item.sleep => true
    | _ => false

end SSE

namespace SSE

/-- A concrete environment used to instantiate universally quantified
theorems: midnight clock, all-zero random draws, zero build overhead,
exact 1-second sleeps. -/
def sampleEnv : Env where
  clock := fun _ => ⟨0, 0, 0, by decide, by decide, by decide⟩
  rand := fun _ => 0
  rand_nonneg := fun _ => le_refl 0
  rand_lt_one := fun _ => by norm_num
  showFloat := fun _ => "0.0"
  t0 := 0
  buildCost := fun _ => 0
  sleepDur := fun _ => 1

/-- Wall-clock instant at which the `i`-th frame (1-based) is yielded.  In
iteration `i` the loop builds the event (taking `buildCost i`), yields the
frame, and then sleeps; `time.sleep(1)` suspends for `sleepDur i`, which is
at least 1 second but may overshoot.  So the first yield happens
`buildCost 1` after the loop starts at `t0`, and yield `i+1` happens a full
sleep plus the next build after yield `i` — the loop does not compensate
for drift. -/
def emitTime (env : Env) : Nat → ℚ
  | 0 => env.t0
  | n + 1 =>
    (if n = 0 then env.t0 else emitTime env n + env.sleepDur n) + env.buildCost (n + 1)

/-- Wall-clock instant of the completion log on the normal path: the loop
body for `i = 10` still ends with `time.sleep(1)`, so the completion print
only runs a full sleep after the 10th yield. -/
def completionTime (env : Env) : ℚ :=
  emitTime env 10 + env.sleepDur 10

/-! Two-connection model over the shared module-level random generator.

`import random; random.random()` draws from the single process-global
`random.Random` instance, whose internal state advances on every call from
any connection.  The model threads that shared state — abstracted as the
position `ptr` in the underlying stream `g` of generated values — through
an arbitrary interleaving of two connections' event-building steps, while
each connection keeps its own local loop counter (`for i in range(1, 11)`)
and its own list of observed `(sequence, randomValue)` pairs. -/

/-- Joint state of two interleaved connections: the shared random
generator's position `ptr`, each connection's private loop counter, and
each connection's observed `(sequence, randomValue)` pairs. -/
structure SharedState where
  ptr : Nat
  c1 : Nat
  c2 : Nat
  out1 : List (Nat × ℚ)
  out2 : List (Nat × ℚ)
deriving DecidableEq

/-- Initial joint state: no draws made, no events built. -/
def initShared : SharedState :=
  { ptr := 0, c1 := 0, c2 := 0, out1 := [], out2 := [] }

/-- One scheduled step: the chosen connection (`true` for connection 1),
if it still has events to build, builds its next event, drawing the next
value `g ptr` from the shared generator and advancing the shared state. -/
def stepShared (g : Nat → ℚ) (st : SharedState) (c : Bool) : SharedState :=
  if c then
    if st.c1 < 10 then
      { st with ptr := st.ptr + 1, c1 := st.c1 + 1,
                out1 := st.out1 ++ [(st.c1 + 1, g st.ptr)] }
    else st
  else
    if st.c2 < 10 then
      { st with ptr := st.ptr + 1, c2 := st.c2 + 1,
                out2 := st.out2 ++ [(st.c2 + 1, g st.ptr)] }
    else st

/-- Run the two interleaved connections under schedule `sched`. -/
def runSched (g : Nat → ℚ) (sched : List Bool) : SharedState :=
  sched.foldl (stepShared g) initShared

/-- Spec-side reading of "each gets its own sequence counter": whatever
the interleaving, each connection's observed sequence numbers are the
contiguous run 1..(its own event count). -/
def OwnSeqCounter (g : Nat → ℚ) : Prop :=
  ∀ sched : List Bool,
    ((runSched g sched).out1.map Prod.fst = List.range' 1 (runSched g sched).c1) ∧
    ((runSched g sched).out2.map Prod.fst = List.range' 1 (runSched g sched).c2)

/-- Spec-side reading of "each gets its own random source" (no shared
mutable state): the random values a connection observes are determined by
its own progress alone — two schedules in which connection 2 has built the
same number of events give connection 2 the same observations, regardless
of what connection 1 did. -/
def OwnRandomSource (g : Nat → ℚ) : Prop :=
  ∀ s1 s2 : List Bool,
    (runSched g s1).c2 = (runSched g s2).c2 →
    (runSched g s1).out2 = (runSched g s2).out2

/-- Spec-side reading of the independence claim: each connection has its
own sequence counter and its own random source. -/
def IndependentConnections (g : Nat → ℚ) : Prop :=
  OwnSeqCounter g ∧ OwnRandomSource g

/-- Invariant of the joint state: private sequence counters produce the
contiguous runs 1..cᵢ, each observation list has one entry per built
event, and the shared generator advanced exactly once per event built by
either connection (every event consumed a fresh draw). -/
def SharedInv (st : SharedState) : Prop :=
  st.out1.map Prod.fst = List.range' 1 st.c1 ∧
  st.out2.map Prod.fst = List.range' 1 st.c2 ∧
  st.out1.length = st.c1 ∧
  st.out2.length = st.c2 ∧
  st.ptr = st.c1 + st.c2

end SSE

namespace SSE

/-- Spec-side characterisation of a well-formed wire frame carrying
sequence number `seq` (following the spec's words): exactly three parts —
an id line `id: <sequence>`, a data line whose payload is a structured-text
object with exactly the keys `count`, `time`, `random` (in that order, with
some time string `t` and some rendered random value `r`), and a terminating
blank line — where the value on the id line and the value of the `count`
key are both `seq`. -/
def IsWellFormedFrame (s : String) (seq : Nat) : Prop :=
  ∃ t r : String,
    s = ("id: " ++ toString seq ++ "\n") ++
        ("data: " ++
          ("\x7b\"count\": " ++ toString seq ++ ", \"time\": \"" ++ t ++
            "\", \"random\": " ++ r ++ "\x7d")) ++
        "\n\n"

/-- Spec-side characterisation of an `HH:MM:SS` wall-clock string
(following the spec's words): two decimal digits for the hour (value in
[00,23]), a colon, two for the minute (in [00,59]), a colon, two for the
second (in [00,59]). -/
def IsHMSString (s : String) : Prop :=
  ∃ h m sec : Nat, h ≤ 23 ∧ m ≤ 59 ∧ sec ≤ 59 ∧
    s.data = [Nat.digitChar (h / 10), Nat.digitChar (h % 10), ':',
              Nat.digitChar (m / 10), Nat.digitChar (m % 10), ':',
              Nat.digitChar (sec / 10), Nat.digitChar (sec % 10)]

theorem pad2_data {n : Nat} (h : n < 60) :
    (pad2 n).data = [Nat.digitChar (n / 10), Nat.digitChar (n % 10)] := by
  revert h
  revert n
  decide

/-- C1: For every completed stream (`budget = none`), the handler delivers
exactly 10 frames whose sequence numbers are the contiguous, strictly
increasing sequence 1..10 in emission order. -/
theorem completed_stream_frames (env : Env) :
    framesIds (handleConnection env none) = List.range' 1 10 := by
  simp [handleConnection, generate_events, emitLoop, accepts, framesIds]
  decide

/-- C2: Every emitted frame is serialized as exactly three parts — an id
line `id: <sequence>`, a data line whose payload is an object with exactly
the keys `count`, `time`, `random`, and a terminating blank line — and the
id-line value equals the `count` value, both being the frame's sequence
number `i`. -/
theorem frame_three_parts_id_eq_count (env : Env) (i : Nat) :
    IsWellFormedFrame (frameStr env i) i := by
  refine ⟨fmtHMS (env.clock i), env.showFloat (env.rand i), ?_⟩
  unfold frameStr jsonDumps buildEvent
  apply String.ext
  simp [String.data_append]

/-- C7: Every emitted frame's random value is the sample drawn freshly at
that iteration (event `i` carries exactly the `i`-th draw of the source,
persisted nowhere else), and it lies in the half-open interval [0,1). -/
theorem frame_random_fresh_unit_interval (env : Env) (i : Nat) :
    (buildEvent env i).random = env.rand i ∧
      0 ≤ (buildEvent env i).random ∧ (buildEvent env i).random < 1 :=
  ⟨rfl, env.rand_nonneg i, env.rand_lt_one i⟩

/-- C8: Every emitted frame's wall-clock time string matches the pattern
`HH:MM:SS` with HH in [00,23] and MM, SS in [00,59], formatted from the
local clock sampled when the event is built. -/
theorem frame_time_matches_hms (env : Env) (i : Nat) :
    IsHMSString (buildEvent env i).time := by
  have hh : (env.clock i).hour < 60 :=
    lt_trans (env.clock i).hour_lt (by norm_num)
  refine ⟨(env.clock i).hour, (env.clock i).minute, (env.clock i).second,
    Nat.lt_succ_iff.mp (env.clock i).hour_lt,
    Nat.lt_succ_iff.mp (env.clock i).minute_lt,
    Nat.lt_succ_iff.mp (env.clock i).second_lt, ?_⟩
  simp [buildEvent, fmtHMS, String.data_append, pad2_data hh,
    pad2_data (env.clock i).minute_lt, pad2_data (env.clock i).second_lt]

theorem emitLoop_disconnect (env : Env) (k : Nat) (n : Nat) :
    ∀ i, i ≤ k + 1 → k + 1 < i + n →
      framesIds (emitLoop env (some k) i n) = List.range' i (k + 1 - i) ∧
      countLog (emitLoop env (some k) i n) LogMsg.abruptDisconnect = 1 ∧
      countLog (emitLoop env (some k) i n) LogMsg.streamCompleted = 0 ∧
      countLog (emitLoop env (some k) i n) LogMsg.connectionClosed = 0 := by
  induction n with
  | zero => intro i h1 h2; omega
  | succ n ih =>
    intro i h1 h2
    by_cases hik : i ≤ k
    · have IH := ih (i + 1) (by omega) (by omega)
      have hrange : k + 1 - i = (k - i) + 1 := by omega
      have hsub : k + 1 - (i + 1) = k - i := by omega
      rw [hsub] at IH
      simp only [emitLoop, accepts, decide_eq_true_eq, if_pos hik, framesIds,
        countLog, List.filterMap_cons, List.countP_cons, hrange,
        List.range'_succ] at IH ⊢
      simp [IH.1, IH.2.1, IH.2.2.1, IH.2.2.2]
    · have hi : i = k + 1 := by omega
      subst hi
      simp [emitLoop, accepts, framesIds, countLog]

theorem emitLoop_no_close (env : Env) (budget : Option Nat) (n : Nat) :
    ∀ i, countLog (emitLoop env budget i n) LogMsg.connectionClosed = 0 := by
  induction n with
  | zero => intro i; simp [emitLoop, countLog]
  | succ n ih =>
    intro i
    by_cases h : accepts budget i
    · simp [emitLoop, h, countLog, List.countP_cons] at ih ⊢
      exact ih (i + 1)
    · simp [emitLoop, h, countLog]

/-- C3: For every connection whose peer disconnects after receiving `k`
frames (mid-stream, `k < 10`), the handler logs exactly one
abrupt-disconnect event and exactly one connection-closed event, emits no
completion log (the termination propagates), and the delivered frames are
exactly 1..k — in particular no frame `k+1` is delivered, not even
partially. -/
theorem early_disconnect_behaviour (env : Env) (k : Nat) (hk : k < 10) :
    framesIds (handleConnection env (some k)) = List.range' 1 k ∧
      k + 1 ∉ framesIds (handleConnection env (some k)) ∧
      countLog (handleConnection env (some k)) LogMsg.abruptDisconnect = 1 ∧
      countLog (handleConnection env (some k)) LogMsg.connectionClosed = 1 ∧
      countLog (handleConnection env (some k)) LogMsg.streamCompleted = 0 := by
  have H := emitLoop_disconnect env k 10 1 (by omega) (by omega)
  rw [show k + 1 - 1 = k from rfl] at H
  unfold handleConnection generate_events
  simp only [framesIds, countLog, List.filterMap_cons, List.filterMap_append,
    List.countP_cons, List.countP_append] at H ⊢
  refine ⟨by simp [H.1], ?_, by simp [H.2.1], by simp [H.2.2.2], by simp [H.2.2.1]⟩
  simp [H.1, List.mem_range']
  omega

/-- Witness for C3 at `k = 3` in the sample environment. -/
theorem early_disconnect_behaviour_witness :
    3 < 10 ∧
      (framesIds (handleConnection sampleEnv (some 3)) = List.range' 1 3 ∧
        3 + 1 ∉ framesIds (handleConnection sampleEnv (some 3)) ∧
        countLog (handleConnection sampleEnv (some 3)) LogMsg.abruptDisconnect = 1 ∧
        countLog (handleConnection sampleEnv (some 3)) LogMsg.connectionClosed = 1 ∧
        countLog (handleConnection sampleEnv (some 3)) LogMsg.streamCompleted = 0) :=
  ⟨by decide, early_disconnect_behaviour sampleEnv 3 (by decide)⟩

/-- C4: Every connection, whether it ends by normal completion or by
abrupt disconnect, reaches the terminal closed state: the trace's final
item is the connection-closed log, and that log is emitted exactly once. -/
theorem connection_closed_exactly_once (env : Env) (budget : Option Nat) :
    countLog (handleConnection env budget) LogMsg.connectionClosed = 1 ∧
      (handleConnection env budget).getLast? =
        some (Item.log LogMsg.connectionClosed) := by
  constructor
  · have H := emitLoop_no_close env budget 10 1
    unfold handleConnection generate_events
    simp only [countLog, List.countP_cons, List.countP_append] at H ⊢
    simp [H]
  · unfold handleConnection
    rw [← List.cons_append, List.getLast?_concat]

/-- C5: For every connection held open for the full duration, the handler
logs exactly one completion event and exactly one close event; at the
moment of closing, 10 frames have been delivered and the last delivered
frame's count is 10. -/
theorem full_duration_logs (env : Env) :
    countLog (handleConnection env none) LogMsg.streamCompleted = 1 ∧
      countLog (handleConnection env none) LogMsg.connectionClosed = 1 ∧
      (framesIds (handleConnection env none)).length = 10 ∧
      (framesIds (handleConnection env none)).getLast? = some 10 := by
  refine ⟨?_, ?_, ?_, ?_⟩ <;>
    simp [handleConnection, generate_events, emitLoop, accepts, framesIds, countLog]

/-- C6: For every completed stream and every k in 1..9, at least 1 second
of wall-clock time elapses between the emission of frame k and of frame
k+1: the handler suspends for a full second after writing each frame (and
the build overhead only adds to the gap; nothing compensates for drift). -/
theorem frame_gap_at_least_one_second (env : Env)
    (hb : ∀ j, 0 ≤ env.buildCost j) (hs : ∀ j, 1 ≤ env.sleepDur j)
    (k : Nat) (hk1 : 1 ≤ k) (hk9 : k ≤ 9) :
    1 ≤ emitTime env (k + 1) - emitTime env k := by
  have hk0 : k ≠ 0 := by omega
  rw [show emitTime env (k + 1) =
      (if k = 0 then env.t0 else emitTime env k + env.sleepDur k) +
        env.buildCost (k + 1) from rfl, if_neg hk0]
  have h1 := hs k
  have h2 := hb (k + 1)
  linarith

/-- Witness for C6 at `k = 1` in the sample environment. -/
theorem frame_gap_at_least_one_second_witness :
    (∀ j, (0 : ℚ) ≤ sampleEnv.buildCost j) ∧
      (∀ j, (1 : ℚ) ≤ sampleEnv.sleepDur j) ∧
      1 ≤ 1 ∧ 1 ≤ 9 ∧ 1 ≤ emitTime sampleEnv (1 + 1) - emitTime sampleEnv 1 :=
  ⟨fun _ => le_refl 0, fun _ => le_refl 1, le_refl 1, by omega,
    frame_gap_at_least_one_second sampleEnv (fun _ => le_refl 0)
      (fun _ => le_refl 1) 1 (le_refl 1) (by omega)⟩

/-- C10: On the normal-completion path the 1-second suspension also runs
after the 10th frame: a completed stream performs exactly 10 sleep steps,
and the completion log (and hence the closing of the stream) occurs at
least 1 second after the last frame is written. -/
theorem final_sleep_after_last_frame (env : Env)
    (hs : ∀ j, 1 ≤ env.sleepDur j) :
    countSleeps (handleConnection env none) = 10 ∧
      1 ≤ completionTime env - emitTime env 10 := by
  constructor
  · simp [handleConnection, generate_events, emitLoop, accepts, countSleeps]
  · have h := hs 10
    unfold completionTime
    linarith

/-- Witness for C10 in the sample environment. -/
theorem final_sleep_after_last_frame_witness :
    (∀ j, (1 : ℚ) ≤ sampleEnv.sleepDur j) ∧
      (countSleeps (handleConnection sampleEnv none) = 10 ∧
        1 ≤ completionTime sampleEnv - emitTime sampleEnv 10) :=
  ⟨fun _ => le_refl 1, final_sleep_after_last_frame sampleEnv (fun _ => le_refl 1)⟩

theorem sharedInv_init : SharedInv initShared :=
  ⟨rfl, rfl, rfl, rfl, rfl⟩

theorem sharedInv_step (g : Nat → ℚ) (st : SharedState) (c : Bool)
    (h : SharedInv st) : SharedInv (stepShared g st c) := by
  obtain ⟨h1, h2, h3, h4, h5⟩ := h
  unfold stepShared SharedInv
  cases c with
  | true =>
    by_cases hc : st.c1 < 10
    · simp only [if_pos hc, if_pos rfl]
      refine ⟨?_, by simpa using h2, by simp [h3], by simpa using h4, by simp [h5]; omega⟩
      simp [h1, List.range'_concat]
      omega
    · simp only [if_neg hc, if_pos rfl]
      exact ⟨h1, h2, h3, h4, h5⟩
  | false =>
    by_cases hc : st.c2 < 10
    · simp only [if_neg Bool.false_ne_true]
      simp only [if_pos hc]
      refine ⟨by simpa using h1, ?_, by simpa using h3, by simp [h4], by simp [h5]; omega⟩
      simp [h2, List.range'_concat]
      omega
    · simp only [if_neg Bool.false_ne_true, if_neg hc]
      exact ⟨h1, h2, h3, h4, h5⟩

theorem sharedInv_run (g : Nat → ℚ) (sched : List Bool) :
    SharedInv (runSched g sched) := by
  unfold runSched
  have H : ∀ (l : List Bool) (st : SharedState),
      SharedInv st → SharedInv (l.foldl (stepShared g) st) := by
    intro l
    induction l with
    | nil => intro st h; exact h
    | cons b l ih => intro st h; exact ih _ (sharedInv_step g st b h)
  exact H sched initShared sharedInv_init

/-- C9 counterexample: the two connections do NOT each get their own
random source — they share the process-global generator of the `random`
module, so the values connection 2 observes depend on connection 1's
interleaving.  Concretely, over the stream `g n = n`, connection 2's first
event carries 1 when connection 1 draws first and 0 when it does not. -/
theorem shared_random_counterexample :
    ¬ IndependentConnections (fun n => (n : ℚ)) := by
  intro h
  have h2 := h.2 [true, false] [false] (by decide)
  exact absurd h2 (by decide)

/-- C9 (amended): simultaneous connections each keep their own sequence
counter — each connection's observed sequence numbers are the contiguous
run 1..(its event count) under every interleaving — but they share the
single module-level random source, which advances exactly once per event
built by either connection, so every event consumes a fresh draw and no
drawn value is reused across connections. -/
theorem own_counter_shared_fresh_random (g : Nat → ℚ) (sched : List Bool) :
    (runSched g sched).out1.map Prod.fst = List.range' 1 (runSched g sched).c1 ∧
      (runSched g sched).out2.map Prod.fst = List.range' 1 (runSched g sched).c2 ∧
      (runSched g sched).out1.length = (runSched g sched).c1 ∧
      (runSched g sched).out2.length = (runSched g sched).c2 ∧
      (runSched g sched).ptr = (runSched g sched).c1 + (runSched g sched).c2 :=
  sharedInv_run g sched

end SSE
